import Mathlib

/-!
Shallow embedding of the verification-and-aggregation pipeline of the
Data-Pool dashboard (`src/app.py`).

Conventions of the embedding:
* SQL `DECIMAL` waste quantities and Python floats are modelled as `ℚ`
  (exact arithmetic; the guarded division in the source is the property
  under study, not float rounding).
* SQL `INTEGER` student counts are modelled as `ℤ`.
* Database tables are modelled as maps: the `master_waste_data` table,
  `UNIQUE(date, hostel)`, is a function from the key `(date, hostel)` to
  an optional row; the two submission tables are functions from the
  unique `submission_id` to an optional row; `pho_edits` (append-only,
  `SERIAL` primary key) is a list in insertion order.
* Every dictionary access `data.get(field, 0)` in the source is a field
  projection here: the rows handed to the aggregation functions come from
  `SELECT *` over tables whose columns all carry `DEFAULT 0`.
* A database call that can fail (caught `except` branch returning
  `False` / leaving the table unchanged) is modelled by an explicit
  success flag threaded into the operation: on `false` the state is
  unchanged, mirroring a rolled-back single-statement transaction.
* `datetime.now()` is an effect; it is passed in as an explicit
  timestamp string parameter.
-/

namespace DataPool

/-- Status column of both submission tables:
`CHECK (status IN ('pending', 'verified', 'rejected'))`. -/
inductive Status where
  | pending
  | verified
  | rejected
deriving DecidableEq

/-- Row of `mess_waste_submissions` (the columns read or written by the
modelled operations). -/
structure MessSubmission where
  submission_id : String
  submission_date : String
  hostel : String
  breakfast_students : ℤ
  breakfast_student_waste : ℚ
  breakfast_counter_waste : ℚ
  breakfast_vegetable_peels : ℚ
  lunch_students : ℤ
  lunch_student_waste : ℚ
  lunch_counter_waste : ℚ
  lunch_vegetable_peels : ℚ
  snacks_students : ℤ
  snacks_student_waste : ℚ
  snacks_counter_waste : ℚ
  snacks_vegetable_peels : ℚ
  dinner_students : ℤ
  dinner_student_waste : ℚ
  dinner_counter_waste : ℚ
  dinner_vegetable_peels : ℚ
  mess_dry_waste : ℚ
  total_students : ℤ
  total_mess_waste : ℚ
  submitted_by : String
  status : Status
  verified_by : Option String
  verified_at : Option String
deriving DecidableEq

/-- Row of `hostel_waste_submissions` (the columns read or written by the
modelled operations). -/
structure HostelSubmission where
  submission_id : String
  submission_date : String
  hostel : String
  dry_waste : ℚ
  wet_waste : ℚ
  e_waste : ℚ
  biomedical_waste : ℚ
  hazardous_waste : ℚ
  total_waste : ℚ
  submitted_by : String
  submitted_at : String
  status : Status
  verified_by : Option String
  verified_at : Option String
deriving DecidableEq

/-- Row of `master_waste_data`: the mess-derived group, the hostel-derived
group and the student headcount, flat as in the table schema. -/
structure MasterRow where
  total_students : ℤ
  breakfast_student_waste : ℚ
  breakfast_counter_waste : ℚ
  breakfast_vegetable_peels : ℚ
  lunch_student_waste : ℚ
  lunch_counter_waste : ℚ
  lunch_vegetable_peels : ℚ
  snacks_student_waste : ℚ
  snacks_counter_waste : ℚ
  snacks_vegetable_peels : ℚ
  dinner_student_waste : ℚ
  dinner_counter_waste : ℚ
  dinner_vegetable_peels : ℚ
  total_mess_waste : ℚ
  total_mess_waste_no_peels : ℚ
  per_capita_mess_waste : ℚ
  per_capita_mess_waste_no_peels : ℚ
  mess_dry_waste : ℚ
  total_hostel_waste : ℚ
  dry_waste : ℚ
  wet_waste : ℚ
  e_waste : ℚ
  biomedical_waste : ℚ
  hazardous_waste : ℚ
deriving DecidableEq

/-- The `master_waste_data` table as a map from its unique key
`(date, hostel)` to an optional row. -/
abbrev MasterTable := String × String → Option MasterRow

/-- Row with every numeric column at its schema default (`DEFAULT 0`):
the row shape produced when an `INSERT` lists only some columns. -/
def defaultMasterRow : MasterRow :=
  ⟨0, 0, 0, 0, 0, 0, 0, 0, 0, 0, 0, 0, 0, 0, 0, 0, 0, 0, 0, 0, 0, 0, 0, 0⟩

/-- The empty `master_waste_data` table. -/
def emptyMaster : MasterTable := fun _ => none

/-- Row-level semantics of the mess upsert statement in
`add_to_master_file_mess`: the computed totals (the four sums and the two
guarded divisions, exactly as in the source), then the
`INSERT ... ON CONFLICT (date, hostel) DO UPDATE SET` whose column list
covers precisely the mess-derived group plus `total_students`.  With no
existing row the insert leaves the unlisted hostel columns at their
schema defaults; with an existing row the update overwrites exactly the
listed columns. -/
def mess_upsert_row (data : MessSubmission) (old : Option MasterRow) : MasterRow :=
  let total_students :=
    data.breakfast_students + data.lunch_students +
    data.snacks_students + data.dinner_students
  let total_mess_waste :=
    data.breakfast_student_waste + data.breakfast_counter_waste +
    data.breakfast_vegetable_peels + data.lunch_student_waste +
    data.lunch_counter_waste + data.lunch_vegetable_peels +
    data.snacks_student_waste + data.snacks_counter_waste +
    data.snacks_vegetable_peels + data.dinner_student_waste +
    data.dinner_counter_waste + data.dinner_vegetable_peels +
    data.mess_dry_waste
  let total_mess_waste_no_peels :=
    data.breakfast_student_waste + data.breakfast_counter_waste +
    data.lunch_student_waste + data.lunch_counter_waste +
    data.snacks_student_waste + data.snacks_counter_waste +
    data.dinner_student_waste + data.dinner_counter_waste +
    data.mess_dry_waste
  let per_capita_mess_waste :=
    if total_students > 0 then total_mess_waste / (total_students : ℚ) else 0
  let per_capita_mess_waste_no_peels :=
    if total_students > 0 then total_mess_waste_no_peels / (total_students : ℚ) else 0
  match old with
  | none =>
      { defaultMasterRow with
        total_students := total_students
        breakfast_student_waste := data.breakfast_student_waste
        breakfast_counter_waste := data.breakfast_counter_waste
        breakfast_vegetable_peels := data.breakfast_vegetable_peels
        lunch_student_waste := data.lunch_student_waste
        lunch_counter_waste := data.lunch_counter_waste
        lunch_vegetable_peels := data.lunch_vegetable_peels
        snacks_student_waste := data.snacks_student_waste
        snacks_counter_waste := data.snacks_counter_waste
        snacks_vegetable_peels := data.snacks_vegetable_peels
        dinner_student_waste := data.dinner_student_waste
        dinner_counter_waste := data.dinner_counter_waste
        dinner_vegetable_peels := data.dinner_vegetable_peels
        total_mess_waste := total_mess_waste
        total_mess_waste_no_peels := total_mess_waste_no_peels
        per_capita_mess_waste := per_capita_mess_waste
        per_capita_mess_waste_no_peels := per_capita_mess_waste_no_peels
        mess_dry_waste := data.mess_dry_waste }
  | some row =>
      { row with
        total_students := total_students
        total_mess_waste := total_mess_waste
        total_mess_waste_no_peels := total_mess_waste_no_peels
        per_capita_mess_waste := per_capita_mess_waste
        per_capita_mess_waste_no_peels := per_capita_mess_waste_no_peels
        breakfast_student_waste := data.breakfast_student_waste
        breakfast_counter_waste := data.breakfast_counter_waste
        breakfast_vegetable_peels := data.breakfast_vegetable_peels
        lunch_student_waste := data.lunch_student_waste
        lunch_counter_waste := data.lunch_counter_waste
        lunch_vegetable_peels := data.lunch_vegetable_peels
        snacks_student_waste := data.snacks_student_waste
        snacks_counter_waste := data.snacks_counter_waste
        snacks_vegetable_peels := data.snacks_vegetable_peels
        dinner_student_waste := data.dinner_student_waste
        dinner_counter_waste := data.dinner_counter_waste
        dinner_vegetable_peels := data.dinner_vegetable_peels
        mess_dry_waste := data.mess_dry_waste }

/-- `add_to_master_file_mess` of `src/app.py`: upsert of the verified
mess submission into `master_waste_data`, keyed by
`(submission_date, hostel)`. -/
def add_to_master_file_mess (data : MessSubmission) (tbl : MasterTable) : MasterTable :=
  fun key =>
    if key = (data.submission_date, data.hostel) then
      some (mess_upsert_row data (tbl key))
    else
      tbl key

/-- Row-level semantics of the hostel upsert statement in
`add_to_master_file_hostel`: `total_hostel_waste` as the sum of the five
category fields, then `INSERT ... ON CONFLICT (date, hostel) DO UPDATE
SET` over precisely the hostel-derived group. -/
def hostel_upsert_row (data : HostelSubmission) (old : Option MasterRow) : MasterRow :=
  let total_hostel_waste :=
    data.dry_waste + data.wet_waste + data.e_waste +
    data.biomedical_waste + data.hazardous_waste
  match old with
  | none =>
      { defaultMasterRow with
        total_hostel_waste := total_hostel_waste
        dry_waste := data.dry_waste
        wet_waste := data.wet_waste
        e_waste := data.e_waste
        biomedical_waste := data.biomedical_waste
        hazardous_waste := data.hazardous_waste }
  | some row =>
      { row with
        total_hostel_waste := total_hostel_waste
        dry_waste := data.dry_waste
        wet_waste := data.wet_waste
        e_waste := data.e_waste
        biomedical_waste := data.biomedical_waste
        hazardous_waste := data.hazardous_waste }

/-- `add_to_master_file_hostel` of `src/app.py`: upsert of the verified
hostel submission into `master_waste_data`, keyed by
`(submission_date, hostel)`. -/
def add_to_master_file_hostel (data : HostelSubmission) (tbl : MasterTable) : MasterTable :=
  fun key =>
    if key = (data.submission_date, data.hostel) then
      some (hostel_upsert_row data (tbl key))
    else
      tbl key

/-- The hostel-derived field group of a master row. -/
structure HostelGroup where
  total_hostel_waste : ℚ
  dry_waste : ℚ
  wet_waste : ℚ
  e_waste : ℚ
  biomedical_waste : ℚ
  hazardous_waste : ℚ
deriving DecidableEq

/-- The mess-derived field group of a master row (with headcount). -/
structure MessGroup where
  total_students : ℤ
  breakfast_student_waste : ℚ
  breakfast_counter_waste : ℚ
  breakfast_vegetable_peels : ℚ
  lunch_student_waste : ℚ
  lunch_counter_waste : ℚ
  lunch_vegetable_peels : ℚ
  snacks_student_waste : ℚ
  snacks_counter_waste : ℚ
  snacks_vegetable_peels : ℚ
  dinner_student_waste : ℚ
  dinner_counter_waste : ℚ
  dinner_vegetable_peels : ℚ
  total_mess_waste : ℚ
  total_mess_waste_no_peels : ℚ
  per_capita_mess_waste : ℚ
  per_capita_mess_waste_no_peels : ℚ
  mess_dry_waste : ℚ
deriving DecidableEq

/-- Projection of a master row onto its hostel-derived group. -/
def hostelGroupOf (r : MasterRow) : HostelGroup :=
  ⟨r.total_hostel_waste, r.dry_waste, r.wet_waste, r.e_waste,
   r.biomedical_waste, r.hazardous_waste⟩

/-- Projection of a master row onto its mess-derived group. -/
def messGroupOf (r : MasterRow) : MessGroup :=
  ⟨r.total_students,
   r.breakfast_student_waste, r.breakfast_counter_waste, r.breakfast_vegetable_peels,
   r.lunch_student_waste, r.lunch_counter_waste, r.lunch_vegetable_peels,
   r.snacks_student_waste, r.snacks_counter_waste, r.snacks_vegetable_peels,
   r.dinner_student_waste, r.dinner_counter_waste, r.dinner_vegetable_peels,
   r.total_mess_waste, r.total_mess_waste_no_peels,
   r.per_capita_mess_waste, r.per_capita_mess_waste_no_peels, r.mess_dry_waste⟩

/-- Hostel group with every field at the schema default zero. -/
def zeroHostelGroup : HostelGroup := ⟨0, 0, 0, 0, 0, 0⟩

/-- Mess group with every field at the schema default zero. -/
def zeroMessGroup : MessGroup :=
  ⟨0, 0, 0, 0, 0, 0, 0, 0, 0, 0, 0, 0, 0, 0, 0, 0, 0, 0⟩

lemma add_mess_at_key (data : MessSubmission) (tbl : MasterTable) :
    add_to_master_file_mess data tbl (data.submission_date, data.hostel)
      = some (mess_upsert_row data (tbl (data.submission_date, data.hostel))) := by
  simp [add_to_master_file_mess]

lemma add_hostel_at_key (data : HostelSubmission) (tbl : MasterTable) :
    add_to_master_file_hostel data tbl (data.submission_date, data.hostel)
      = some (hostel_upsert_row data (tbl (data.submission_date, data.hostel))) := by
  simp [add_to_master_file_hostel]

lemma mess_upsert_row_hostelGroup (data : MessSubmission) (old : Option MasterRow) :
    hostelGroupOf (mess_upsert_row data old)
      = old.elim zeroHostelGroup hostelGroupOf := by
  cases old <;> rfl

lemma hostel_upsert_row_messGroup (data : HostelSubmission) (old : Option MasterRow) :
    messGroupOf (hostel_upsert_row data old)
      = old.elim zeroMessGroup messGroupOf := by
  cases old <;> rfl

lemma mess_upsert_row_idem (data : MessSubmission) (old : Option MasterRow) :
    mess_upsert_row data (some (mess_upsert_row data old)) = mess_upsert_row data old := by
  cases old <;> rfl

lemma add_mess_idem (data : MessSubmission) (tbl : MasterTable) :
    add_to_master_file_mess data (add_to_master_file_mess data tbl)
      = add_to_master_file_mess data tbl := by
  funext k
  by_cases hk : k = (data.submission_date, data.hostel)
  · subst hk
    simp [add_to_master_file_mess, mess_upsert_row_idem]
  · simp [add_to_master_file_mess, hk]

/-- The raw values the verifier types into the mess edit form
(`show_edit_form`, mess branch): one student count and three waste
components per meal, plus the dry-waste field. -/
structure MessEditInputs where
  breakfast_students : ℤ
  breakfast_student_waste : ℚ
  breakfast_counter_waste : ℚ
  breakfast_vegetable_peels : ℚ
  lunch_students : ℤ
  lunch_student_waste : ℚ
  lunch_counter_waste : ℚ
  lunch_vegetable_peels : ℚ
  snacks_students : ℤ
  snacks_student_waste : ℚ
  snacks_counter_waste : ℚ
  snacks_vegetable_peels : ℚ
  dinner_students : ℤ
  dinner_student_waste : ℚ
  dinner_counter_waste : ℚ
  dinner_vegetable_peels : ℚ
  mess_dry_waste : ℚ
deriving DecidableEq

/-- The `edited_data` dictionary built by the save branch of
`show_edit_form` for a mess submission: the form inputs plus the two
totals recomputed there. -/
structure EditedMessData where
  breakfast_students : ℤ
  breakfast_student_waste : ℚ
  breakfast_counter_waste : ℚ
  breakfast_vegetable_peels : ℚ
  lunch_students : ℤ
  lunch_student_waste : ℚ
  lunch_counter_waste : ℚ
  lunch_vegetable_peels : ℚ
  snacks_students : ℤ
  snacks_student_waste : ℚ
  snacks_counter_waste : ℚ
  snacks_vegetable_peels : ℚ
  dinner_students : ℤ
  dinner_student_waste : ℚ
  dinner_counter_waste : ℚ
  dinner_vegetable_peels : ℚ
  mess_dry_waste : ℚ
  total_students : ℤ
  total_mess_waste : ℚ
deriving DecidableEq

/-- Builds the mess `edited_data` dictionary exactly as the save branch
of `show_edit_form` does: `total_students` is the sum of the four
per-meal counts and `total_mess_waste` the sum of the thirteen waste
components. -/
def build_edited_mess (i : MessEditInputs) : EditedMessData :=
  { breakfast_students := i.breakfast_students
    breakfast_student_waste := i.breakfast_student_waste
    breakfast_counter_waste := i.breakfast_counter_waste
    breakfast_vegetable_peels := i.breakfast_vegetable_peels
    lunch_students := i.lunch_students
    lunch_student_waste := i.lunch_student_waste
    lunch_counter_waste := i.lunch_counter_waste
    lunch_vegetable_peels := i.lunch_vegetable_peels
    snacks_students := i.snacks_students
    snacks_student_waste := i.snacks_student_waste
    snacks_counter_waste := i.snacks_counter_waste
    snacks_vegetable_peels := i.snacks_vegetable_peels
    dinner_students := i.dinner_students
    dinner_student_waste := i.dinner_student_waste
    dinner_counter_waste := i.dinner_counter_waste
    dinner_vegetable_peels := i.dinner_vegetable_peels
    mess_dry_waste := i.mess_dry_waste
    total_students :=
      i.breakfast_students + i.lunch_students + i.snacks_students + i.dinner_students
    total_mess_waste :=
      i.breakfast_student_waste + i.breakfast_counter_waste + i.breakfast_vegetable_peels +
      i.lunch_student_waste + i.lunch_counter_waste + i.lunch_vegetable_peels +
      i.snacks_student_waste + i.snacks_counter_waste + i.snacks_vegetable_peels +
      i.dinner_student_waste + i.dinner_counter_waste + i.dinner_vegetable_peels +
      i.mess_dry_waste }

/-- The raw values the verifier types into the hostel edit form. -/
structure HostelEditInputs where
  dry_waste : ℚ
  wet_waste : ℚ
  e_waste : ℚ
  biomedical_waste : ℚ
  hazardous_waste : ℚ
deriving DecidableEq

/-- The `edited_data` dictionary built by the save branch of
`show_edit_form` for a hostel submission. -/
structure EditedHostelData where
  dry_waste : ℚ
  wet_waste : ℚ
  e_waste : ℚ
  biomedical_waste : ℚ
  hazardous_waste : ℚ
  total_waste : ℚ
deriving DecidableEq

/-- Builds the hostel `edited_data` dictionary as `show_edit_form` does:
`total_waste` is recomputed as the sum of the five categories. -/
def build_edited_hostel (i : HostelEditInputs) : EditedHostelData :=
  { dry_waste := i.dry_waste
    wet_waste := i.wet_waste
    e_waste := i.e_waste
    biomedical_waste := i.biomedical_waste
    hazardous_waste := i.hazardous_waste
    total_waste :=
      i.dry_waste + i.wet_waste + i.e_waste + i.biomedical_waste + i.hazardous_waste }

/-- A value persisted into the `original_data` / `edited_data` JSONB
columns of `pho_edits`: either a full submission row (the dictionary the
verifier loaded) or an edited-fields dictionary as built by the edit
form. -/
inductive Snapshot where
  | mess (r : MessSubmission)
  | hostelRec (r : HostelSubmission)
  | messEdit (e : EditedMessData)
  | hostelEdit (e : EditedHostelData)
deriving DecidableEq

/-- Row of the append-only `pho_edits` audit table. -/
structure EditRecord where
  submission_id : String
  submission_type : String
  original_data : Snapshot
  edited_data : Snapshot
  edited_by : String
  edit_reason : String
deriving DecidableEq

/-- The database state touched by the verification workflow: the two
submission tables (keyed by their unique `submission_id`), the master
aggregate table and the audit log. -/
structure DBState where
  mess_subs : String → Option MessSubmission
  hostel_subs : String → Option HostelSubmission
  master : MasterTable
  pho_edits : List EditRecord

/-- `save_pho_edit` of `src/app.py`: inserts one row into `pho_edits`
and commits, returning `True`; on a database error nothing is committed
and it returns `False`.  The success flag `ok` models the fallible
database call. -/
def save_pho_edit (ok : Bool) (submission_id submission_type : String)
    (original_data edited_data : Snapshot) (pho_username edit_reason : String)
    (st : DBState) : DBState × Bool :=
  if ok then
    ({ st with pho_edits := st.pho_edits ++
        [⟨submission_id, submission_type, original_data, edited_data,
          pho_username, edit_reason⟩] }, true)
  else
    (st, false)

/-- Effect of the mess branch of the `UPDATE mess_waste_submissions`
statement in `update_submission_with_edits` on the row with the matching
id: overwrites the component fields and the two stored totals with the
edited values and sets status `verified` plus verifier metadata; every
other column is untouched. -/
def apply_mess_edit (s : MessSubmission) (e : EditedMessData)
    (pho_username ts : String) : MessSubmission :=
  { s with
    breakfast_students := e.breakfast_students
    breakfast_student_waste := e.breakfast_student_waste
    breakfast_counter_waste := e.breakfast_counter_waste
    breakfast_vegetable_peels := e.breakfast_vegetable_peels
    lunch_students := e.lunch_students
    lunch_student_waste := e.lunch_student_waste
    lunch_counter_waste := e.lunch_counter_waste
    lunch_vegetable_peels := e.lunch_vegetable_peels
    snacks_students := e.snacks_students
    snacks_student_waste := e.snacks_student_waste
    snacks_counter_waste := e.snacks_counter_waste
    snacks_vegetable_peels := e.snacks_vegetable_peels
    dinner_students := e.dinner_students
    dinner_student_waste := e.dinner_student_waste
    dinner_counter_waste := e.dinner_counter_waste
    dinner_vegetable_peels := e.dinner_vegetable_peels
    mess_dry_waste := e.mess_dry_waste
    total_students := e.total_students
    total_mess_waste := e.total_mess_waste
    status := Status.verified
    verified_by := some pho_username
    verified_at := some ts }

/-- Effect of the hostel branch of `update_submission_with_edits` on the
row with the matching id. -/
def apply_hostel_edit (s : HostelSubmission) (e : EditedHostelData)
    (pho_username ts : String) : HostelSubmission :=
  { s with
    dry_waste := e.dry_waste
    wet_waste := e.wet_waste
    e_waste := e.e_waste
    biomedical_waste := e.biomedical_waste
    hazardous_waste := e.hazardous_waste
    total_waste := e.total_waste
    status := Status.verified
    verified_by := some pho_username
    verified_at := some ts }

/-- `update_submission_with_edits` of `src/app.py`: dispatches on the
`submission_type` string, updates the matching submission row with the
edited fields plus status `verified` and verifier metadata, commits and
returns `True`.  It does NOT touch `master_waste_data` (it only clears
its read cache).  On a database error (including a missing key in
`edited_data`, which raises before the statement executes) nothing is
committed and it returns `False`. -/
def update_submission_with_edits (ok : Bool) (submission_id submission_type : String)
    (edited_data : Snapshot) (pho_username ts : String) (st : DBState) : DBState × Bool :=
  if ok then
    if submission_type = "mess_waste" then
      match edited_data with
      | Snapshot.messEdit e =>
          ({ st with mess_subs := fun i =>
              if i = submission_id then
                (st.mess_subs i).map (fun s => apply_mess_edit s e pho_username ts)
              else st.mess_subs i }, true)
      | _ => (st, false)
    else
      match edited_data with
      | Snapshot.hostelEdit e =>
          ({ st with hostel_subs := fun i =>
              if i = submission_id then
                (st.hostel_subs i).map (fun s => apply_hostel_edit s e pho_username ts)
              else st.hostel_subs i }, true)
      | _ => (st, false)
  else
    (st, false)

/-- The `record_data` dictionary handed to `approve_submission`: a row
from one of the two submission tables; the source dispatches on the
presence of the `breakfast_students` key, i.e. on the variant. -/
inductive RecordData where
  | mess (r : MessSubmission)
  | hostel (r : HostelSubmission)
deriving DecidableEq

/-- `approve_submission` of `src/app.py`: sets status `verified` and
verifier metadata on the row whose `submission_id` matches — with no
condition on the current status — and applies the matching master-file
upsert with the record's values, returning `True`.  On a database error
the caught exception yields `False` with no committed effect. -/
def approve_submission (ok : Bool) (record_data : RecordData)
    (pho_username ts : String) (st : DBState) : DBState × Bool :=
  if ok then
    match record_data with
    | RecordData.mess r =>
        ({ st with
           mess_subs := fun i =>
             if i = r.submission_id then
               (st.mess_subs i).map (fun s =>
                 { s with status := Status.verified,
                          verified_by := some pho_username,
                          verified_at := some ts })
             else st.mess_subs i
           master := add_to_master_file_mess r st.master }, true)
    | RecordData.hostel r =>
        ({ st with
           hostel_subs := fun i =>
             if i = r.submission_id then
               (st.hostel_subs i).map (fun s =>
                 { s with status := Status.verified,
                          verified_by := some pho_username,
                          verified_at := some ts })
             else st.hostel_subs i
           master := add_to_master_file_hostel r st.master }, true)
  else
    (st, false)

/-- `approve_all_collections` of `src/app.py`: a plain loop calling
`approve_submission` on each record, discarding every per-record result
and returning `None` (here `Unit`).  The `oks` list supplies one success
flag per record (exhausted flags default to success). -/
def approve_all_collections (oks : List Bool) (records : List RecordData)
    (pho_username ts : String) (st : DBState) : DBState × Unit :=
  match records, oks with
  | [], _ => (st, ())
  | r :: rs, [] =>
      approve_all_collections [] rs pho_username ts
        (approve_submission true r pho_username ts st).1
  | r :: rs, ok :: oks2 =>
      approve_all_collections oks2 rs pho_username ts
        (approve_submission ok r pho_username ts st).1

/-- Save branch of `show_edit_form` for a mess submission, i.e. the
edit-then-approve flow: build `edited_data` from the form inputs, write
the audit row with `save_pho_edit`, and only if that succeeded run
`update_submission_with_edits`.  The two steps commit on separate
database connections.  No step of this flow writes `master_waste_data`. -/
def show_edit_form_save_mess (ok1 ok2 : Bool) (record_data : MessSubmission)
    (inp : MessEditInputs) (pho_username ts edit_reason : String)
    (st : DBState) : DBState × Bool :=
  let edited_data := build_edited_mess inp
  let res1 := save_pho_edit ok1 record_data.submission_id "mess_waste"
    (Snapshot.mess record_data) (Snapshot.messEdit edited_data)
    pho_username edit_reason st
  if res1.2 then
    update_submission_with_edits ok2 record_data.submission_id "mess_waste"
      (Snapshot.messEdit edited_data) pho_username ts res1.1
  else
    (res1.1, false)

/-- Save branch of `show_edit_form` for a hostel submission. -/
def show_edit_form_save_hostel (ok1 ok2 : Bool) (record_data : HostelSubmission)
    (inp : HostelEditInputs) (pho_username ts edit_reason : String)
    (st : DBState) : DBState × Bool :=
  let edited_data := build_edited_hostel inp
  let res1 := save_pho_edit ok1 record_data.submission_id "hostel_waste"
    (Snapshot.hostelRec record_data) (Snapshot.hostelEdit edited_data)
    pho_username edit_reason st
  if res1.2 then
    update_submission_with_edits ok2 record_data.submission_id "hostel_waste"
      (Snapshot.hostelEdit edited_data) pho_username ts res1.1
  else
    (res1.1, false)

/-- The totals dictionary built by `aggregate_hostel_waste_collections`
for a non-empty list of same-day collections of one hostel. -/
structure HostelTotals where
  dry_waste : ℚ
  wet_waste : ℚ
  e_waste : ℚ
  biomedical_waste : ℚ
  hazardous_waste : ℚ
  total_waste : ℚ
  collection_count : ℕ
  submitted_by : String
  submitted_at : String
  hostel : String
  submission_date : String
deriving DecidableEq

/-- One step of the accumulation loop in
`aggregate_hostel_waste_collections`. -/
def hostel_totals_step (t : HostelTotals) (rec : HostelSubmission) : HostelTotals :=
  { t with
    dry_waste := t.dry_waste + rec.dry_waste
    wet_waste := t.wet_waste + rec.wet_waste
    e_waste := t.e_waste + rec.e_waste
    biomedical_waste := t.biomedical_waste + rec.biomedical_waste
    hazardous_waste := t.hazardous_waste + rec.hazardous_waste
    total_waste := t.total_waste + rec.total_waste }

/-- `aggregate_hostel_waste_collections` of `src/app.py`: returns the
empty dictionary (`none`) on an empty list, otherwise starts from zero
totals carrying the metadata of the first record and adds every record's
category values. -/
def aggregate_hostel_waste_collections (records : List HostelSubmission) :
    Option HostelTotals :=
  match records with
  | [] => none
  | r0 :: rest =>
      some ((r0 :: rest).foldl hostel_totals_step
        { dry_waste := 0, wet_waste := 0, e_waste := 0,
          biomedical_waste := 0, hazardous_waste := 0, total_waste := 0,
          collection_count := (r0 :: rest).length,
          submitted_by := r0.submitted_by, submitted_at := r0.submitted_at,
          hostel := r0.hostel, submission_date := r0.submission_date })

lemma mess_upsert_row_total_students (data : MessSubmission) (old : Option MasterRow) :
    (mess_upsert_row data old).total_students
      = data.breakfast_students + data.lunch_students +
        data.snacks_students + data.dinner_students := by
  cases old <;> rfl

lemma mess_upsert_row_total (data : MessSubmission) (old : Option MasterRow) :
    (mess_upsert_row data old).total_mess_waste
      = data.breakfast_student_waste + data.breakfast_counter_waste +
        data.breakfast_vegetable_peels + data.lunch_student_waste +
        data.lunch_counter_waste + data.lunch_vegetable_peels +
        data.snacks_student_waste + data.snacks_counter_waste +
        data.snacks_vegetable_peels + data.dinner_student_waste +
        data.dinner_counter_waste + data.dinner_vegetable_peels +
        data.mess_dry_waste := by
  cases old <;> rfl

lemma mess_upsert_row_no_peels (data : MessSubmission) (old : Option MasterRow) :
    (mess_upsert_row data old).total_mess_waste_no_peels
      = data.breakfast_student_waste + data.breakfast_counter_waste +
        data.lunch_student_waste + data.lunch_counter_waste +
        data.snacks_student_waste + data.snacks_counter_waste +
        data.dinner_student_waste + data.dinner_counter_waste +
        data.mess_dry_waste := by
  cases old <;> rfl

/-- All thirteen waste-component fields of a mess submission are
non-negative. -/
def nonneg_components (data : MessSubmission) : Prop :=
  0 ≤ data.breakfast_student_waste ∧ 0 ≤ data.breakfast_counter_waste ∧
  0 ≤ data.breakfast_vegetable_peels ∧
  0 ≤ data.lunch_student_waste ∧ 0 ≤ data.lunch_counter_waste ∧
  0 ≤ data.lunch_vegetable_peels ∧
  0 ≤ data.snacks_student_waste ∧ 0 ≤ data.snacks_counter_waste ∧
  0 ≤ data.snacks_vegetable_peels ∧
  0 ≤ data.dinner_student_waste ∧ 0 ≤ data.dinner_counter_waste ∧
  0 ≤ data.dinner_vegetable_peels ∧
  0 ≤ data.mess_dry_waste

instance (data : MessSubmission) : Decidable (nonneg_components data) := by
  unfold nonneg_components
  infer_instance

/-- C1: applying a verified mess submission to the master aggregate
leaves the hostel-derived field group of the keyed row untouched when the
row exists, and at its zero defaults when the row is freshly inserted;
symmetrically the hostel upsert leaves the mess-derived group untouched,
or at zero defaults on insert. -/
theorem mess_hostel_upsert_frame (m : MessSubmission) (hs : HostelSubmission)
    (tbl : MasterTable) :
    (add_to_master_file_mess m tbl (m.submission_date, m.hostel)).map hostelGroupOf
        = some ((tbl (m.submission_date, m.hostel)).elim zeroHostelGroup hostelGroupOf)
  ∧ (add_to_master_file_hostel hs tbl (hs.submission_date, hs.hostel)).map messGroupOf
        = some ((tbl (hs.submission_date, hs.hostel)).elim zeroMessGroup messGroupOf) := by
  constructor
  · rw [add_mess_at_key]
    simp [mess_upsert_row_hostelGroup]
  · rw [add_hostel_at_key]
    simp [hostel_upsert_row_messGroup]

/-- C5: the mess upsert is idempotent — applying
`add_to_master_file_mess` twice with the same input yields the same
master table (hence the same aggregate row) as applying it once. -/
theorem add_to_master_file_mess_idempotent (data : MessSubmission) (tbl : MasterTable) :
    add_to_master_file_mess data (add_to_master_file_mess data tbl)
      = add_to_master_file_mess data tbl :=
  add_mess_idem data tbl

/-- C6: the row stored by the mess upsert carries
`per_capita_mess_waste` equal to `total_mess_waste / total_students` when
the headcount is positive and exactly `0` otherwise (likewise the
no-peels variant); the computation is total — no division-by-zero fault
and no infinity. -/
theorem per_capita_zero_guard (data : MessSubmission) (tbl : MasterTable) :
    ∃ r, add_to_master_file_mess data tbl (data.submission_date, data.hostel) = some r
      ∧ r.total_students = data.breakfast_students + data.lunch_students +
          data.snacks_students + data.dinner_students
      ∧ r.per_capita_mess_waste =
          (if 0 < r.total_students then r.total_mess_waste / (r.total_students : ℚ) else 0)
      ∧ r.per_capita_mess_waste_no_peels =
          (if 0 < r.total_students then r.total_mess_waste_no_peels / (r.total_students : ℚ) else 0) := by
  refine ⟨mess_upsert_row data (tbl (data.submission_date, data.hostel)),
    add_mess_at_key data tbl, ?_, ?_, ?_⟩ <;>
  cases tbl (data.submission_date, data.hostel) <;> rfl

/-- C7: the row stored by the mess upsert has `total_mess_waste` equal to
the sum of all thirteen waste-component fields and
`total_mess_waste_no_peels` equal to the same sum without the four
vegetable-peel fields; with non-negative components the no-peels total
never exceeds the full total. -/
theorem total_mess_waste_sum_and_peels_bound (data : MessSubmission) (tbl : MasterTable)
    (hnn : nonneg_components data) :
    ∃ r, add_to_master_file_mess data tbl (data.submission_date, data.hostel) = some r
      ∧ r.total_mess_waste =
          ([data.breakfast_student_waste, data.breakfast_counter_waste,
            data.breakfast_vegetable_peels,
            data.lunch_student_waste, data.lunch_counter_waste,
            data.lunch_vegetable_peels,
            data.snacks_student_waste, data.snacks_counter_waste,
            data.snacks_vegetable_peels,
            data.dinner_student_waste, data.dinner_counter_waste,
            data.dinner_vegetable_peels,
            data.mess_dry_waste] : List ℚ).sum
      ∧ r.total_mess_waste_no_peels =
          ([data.breakfast_student_waste, data.breakfast_counter_waste,
            data.lunch_student_waste, data.lunch_counter_waste,
            data.snacks_student_waste, data.snacks_counter_waste,
            data.dinner_student_waste, data.dinner_counter_waste,
            data.mess_dry_waste] : List ℚ).sum
      ∧ r.total_mess_waste_no_peels ≤ r.total_mess_waste := by
  obtain ⟨h1, h2, h3, h4, h5, h6, h7, h8, h9, h10, h11, h12, h13⟩ := hnn
  refine ⟨mess_upsert_row data (tbl (data.submission_date, data.hostel)),
    add_mess_at_key data tbl, ?_, ?_, ?_⟩
  · rw [mess_upsert_row_total]
    simp only [List.sum_cons, List.sum_nil]
    ring
  · rw [mess_upsert_row_no_peels]
    simp only [List.sum_cons, List.sum_nil]
    ring
  · rw [mess_upsert_row_total, mess_upsert_row_no_peels]
    linarith

/-- Concrete mess submission after the spec's worked example: hostel
"2", 2024-01-10, breakfast only, 50 students, waste 3 + 1 + 1 kg. -/
def messW : MessSubmission :=
  { submission_id := "mw1", submission_date := "2024-01-10", hostel := "2",
    breakfast_students := 50, breakfast_student_waste := 3,
    breakfast_counter_waste := 1, breakfast_vegetable_peels := 1,
    lunch_students := 0, lunch_student_waste := 0,
    lunch_counter_waste := 0, lunch_vegetable_peels := 0,
    snacks_students := 0, snacks_student_waste := 0,
    snacks_counter_waste := 0, snacks_vegetable_peels := 0,
    dinner_students := 0, dinner_student_waste := 0,
    dinner_counter_waste := 0, dinner_vegetable_peels := 0,
    mess_dry_waste := 0, total_students := 50, total_mess_waste := 5,
    submitted_by := "mess1", status := Status.pending,
    verified_by := none, verified_at := none }

/-- Witness for C7 at the spec's worked example. -/
theorem total_mess_waste_sum_witness :
    nonneg_components messW ∧
    (∃ r, add_to_master_file_mess messW emptyMaster (messW.submission_date, messW.hostel) = some r
      ∧ r.total_mess_waste_no_peels ≤ r.total_mess_waste) :=
  ⟨by decide, by
    obtain ⟨r, hr, _, _, hle⟩ :=
      total_mess_waste_sum_and_peels_bound messW emptyMaster (by decide)
    exact ⟨r, hr, hle⟩⟩

/-- The same submission as already verified by a first approval. -/
def messV : MessSubmission :=
  { messW with
    submission_id := "mw2"
    status := Status.verified
    verified_by := some "pho1"
    verified_at := some "t0" }

/-- State in which every mess id resolves to the verified submission. -/
def stVerified : DBState :=
  { mess_subs := fun _ => some messV, hostel_subs := fun _ => none,
    master := emptyMaster, pho_edits := [] }

/-- A pending copy of the worked-example submission. -/
def messP : MessSubmission := { messW with submission_id := "mw3" }

/-- State holding the pending mess submission, empty master, empty log. -/
def stPend : DBState :=
  { mess_subs := fun _ => some messP, hostel_subs := fun _ => none,
    master := emptyMaster, pho_edits := [] }

/-- Concrete verifier corrections typed into the mess edit form. -/
def inpE : MessEditInputs :=
  { breakfast_students := 40, breakfast_student_waste := 2,
    breakfast_counter_waste := 1, breakfast_vegetable_peels := 1,
    lunch_students := 0, lunch_student_waste := 0,
    lunch_counter_waste := 0, lunch_vegetable_peels := 0,
    snacks_students := 0, snacks_student_waste := 0,
    snacks_counter_waste := 0, snacks_vegetable_peels := 0,
    dinner_students := 0, dinner_student_waste := 0,
    dinner_counter_waste := 0, dinner_vegetable_peels := 0,
    mess_dry_waste := 0 }

/-- A pending hostel submission. -/
def hostelP : HostelSubmission :=
  { submission_id := "hw1", submission_date := "2024-01-10", hostel := "2",
    dry_waste := 2, wet_waste := 3, e_waste := 0,
    biomedical_waste := 0, hazardous_waste := 1, total_waste := 6,
    submitted_by := "host1", submitted_at := "t0",
    status := Status.pending, verified_by := none, verified_at := none }

/-- Concrete verifier corrections typed into the hostel edit form. -/
def hinpE : HostelEditInputs := ⟨2, 3, 0, 0, 1⟩

/-- State holding the pending hostel submission. -/
def stHost : DBState :=
  { mess_subs := fun _ => none, hostel_subs := fun _ => some hostelP,
    master := emptyMaster, pho_edits := [] }

/-- C2 counterexample: approving a submission whose stored status is
already `verified` succeeds (returns `True`) instead of failing — the
update carries no condition on the current status. -/
theorem approve_already_verified_succeeds :
    stVerified.mess_subs messV.submission_id = some messV
  ∧ messV.status = Status.verified
  ∧ (approve_submission true (RecordData.mess messV) "pho2" "t1" stVerified).2 = true :=
  ⟨rfl, rfl, rfl⟩

/-- C2 as amended: `approve_submission` checks nothing about the current
status — it always succeeds, maps the stored row (whatever its status)
to `verified` with fresh verifier metadata, and re-applies the aggregate
upsert; a second identical approval therefore succeeds again and leaves
the master table exactly as after the first, because the upsert
overwrites with values recomputed from the same record. -/
theorem approve_submission_unconditional (r : MessSubmission) (hr : HostelSubmission)
    (u1 ts1 u2 ts2 : String) (st : DBState) :
    (approve_submission true (RecordData.mess r) u1 ts1 st).2 = true
  ∧ (approve_submission true (RecordData.mess r) u1 ts1 st).1.mess_subs r.submission_id
      = (st.mess_subs r.submission_id).map (fun s =>
          { s with status := Status.verified,
                   verified_by := some u1, verified_at := some ts1 })
  ∧ (approve_submission true (RecordData.hostel hr) u2 ts2 st).2 = true
  ∧ (approve_submission true (RecordData.mess r) u1 ts1
        (approve_submission true (RecordData.mess r) u1 ts1 st).1).1.master
      = (approve_submission true (RecordData.mess r) u1 ts1 st).1.master := by
  refine ⟨rfl, ?_, rfl, ?_⟩
  · simp [approve_submission]
  · exact add_mess_idem r st.master

lemma edit_flow_mess_master_unchanged (ok1 ok2 : Bool) (r : MessSubmission)
    (inp : MessEditInputs) (u ts reason : String) (st : DBState) :
    (show_edit_form_save_mess ok1 ok2 r inp u ts reason st).1.master = st.master := by
  cases ok1 <;> cases ok2 <;> rfl

lemma edit_flow_hostel_master_unchanged (ok1 ok2 : Bool) (r : HostelSubmission)
    (inp : HostelEditInputs) (u ts reason : String) (st : DBState) :
    (show_edit_form_save_hostel ok1 ok2 r inp u ts reason st).1.master = st.master := by
  cases ok1 <;> cases ok2 <;> rfl

/-- C3: the edit-then-approve flow never invokes the aggregation engine.
At the failing input (the pending worked-example submission, edited and
approved with both steps succeeding) the flow reports success, the
submission row carries the edited totals and status `verified`, yet the
master aggregate still has no row for the submission's (date, hostel);
in general the flow leaves the whole master table untouched. -/
theorem edit_and_approve_skips_master :
    ((show_edit_form_save_mess true true messP inpE "pho1" "t1" "typo" stPend).2 = true
  ∧ ((show_edit_form_save_mess true true messP inpE "pho1" "t1" "typo" stPend).1.mess_subs
        messP.submission_id).map (fun s => s.status) = some Status.verified
  ∧ ((show_edit_form_save_mess true true messP inpE "pho1" "t1" "typo" stPend).1.mess_subs
        messP.submission_id).map (fun s => s.total_mess_waste)
      = some (build_edited_mess inpE).total_mess_waste
  ∧ (show_edit_form_save_mess true true messP inpE "pho1" "t1" "typo" stPend).1.master
        (messP.submission_date, messP.hostel) = none)
  ∧ ∀ (ok1 ok2 : Bool) (r : MessSubmission) (inp : MessEditInputs)
      (u ts reason : String) (st : DBState),
      (show_edit_form_save_mess ok1 ok2 r inp u ts reason st).1.master = st.master := by
  exact ⟨⟨rfl, rfl, rfl, rfl⟩, edit_flow_mess_master_unchanged⟩

/-- C4 counterexample: with the audit write succeeding and the
submission update failing, the flow reports failure while the freshly
written edit record persists and the submission is still `pending` —
the steps are not one atomic unit. -/
theorem edit_flow_nonatomic_counterexample :
    stPend.mess_subs messP.submission_id = some messP
  ∧ messP.status = Status.pending
  ∧ (show_edit_form_save_mess true false messP inpE "pho1" "t1" "fix" stPend).2 = false
  ∧ (show_edit_form_save_mess true false messP inpE "pho1" "t1" "fix" stPend).1.pho_edits
      = [⟨messP.submission_id, "mess_waste", Snapshot.mess messP,
          Snapshot.messEdit (build_edited_mess inpE), "pho1", "fix"⟩]
  ∧ ((show_edit_form_save_mess true false messP inpE "pho1" "t1" "fix" stPend).1.mess_subs
        messP.submission_id).map (fun s => s.status) = some Status.pending :=
  ⟨rfl, rfl, rfl, rfl, rfl⟩

/-- C4 as amended: the audit write and the submission update are two
separate transactions, each individually all-or-nothing.  When the audit
write fails the flow stops with the state unchanged; when the submission
update fails after a successful audit write, the appended edit record
persists while everything else — including the still-pending submission —
is untouched.  The aggregate upsert is not part of the flow at all. -/
theorem edit_flow_two_transactions (ok2 : Bool) (r : MessSubmission)
    (inp : MessEditInputs) (u ts reason : String) (st : DBState) :
    show_edit_form_save_mess true false r inp u ts reason st
      = ({ st with pho_edits := st.pho_edits ++
            [⟨r.submission_id, "mess_waste", Snapshot.mess r,
              Snapshot.messEdit (build_edited_mess inp), u, reason⟩] }, false)
  ∧ show_edit_form_save_mess false ok2 r inp u ts reason st = (st, false) :=
  ⟨rfl, rfl⟩

/-- C8: a successful edit-then-approve appends exactly one edit record
to the audit log — `original_data` is the submission row exactly as
stored before the edit, `edited_data` is the edited-fields dictionary
built from the form inputs — and every earlier log entry is left in
place; the same holds for the hostel variant. -/
theorem edit_record_exactly_once
    (r : MessSubmission) (inp : MessEditInputs)
    (hr : HostelSubmission) (hinp : HostelEditInputs)
    (u1 ts1 reason1 u2 ts2 reason2 : String) (st1 st2 : DBState)
    (h1 : st1.mess_subs r.submission_id = some r)
    (h2 : st2.hostel_subs hr.submission_id = some hr) :
    (show_edit_form_save_mess true true r inp u1 ts1 reason1 st1).1.pho_edits
        = st1.pho_edits ++
          [⟨r.submission_id, "mess_waste", Snapshot.mess r,
            Snapshot.messEdit (build_edited_mess inp), u1, reason1⟩]
  ∧ (show_edit_form_save_hostel true true hr hinp u2 ts2 reason2 st2).1.pho_edits
        = st2.pho_edits ++
          [⟨hr.submission_id, "hostel_waste", Snapshot.hostelRec hr,
            Snapshot.hostelEdit (build_edited_hostel hinp), u2, reason2⟩] :=
  ⟨rfl, rfl⟩

/-- Witness for C8 at the concrete pending submissions. -/
theorem edit_record_exactly_once_witness :
    (show_edit_form_save_mess true true messP inpE "pho1" "t1" "fix2" stPend).1.pho_edits
      = stPend.pho_edits ++
        [⟨messP.submission_id, "mess_waste", Snapshot.mess messP,
          Snapshot.messEdit (build_edited_mess inpE), "pho1", "fix2"⟩] :=
  (edit_record_exactly_once messP inpE hostelP hinpE "pho1" "t1" "fix2"
      "pho2" "t2" "r2" stPend stHost rfl rfl).1

/-- The records whose database call succeeds, in order — a comparison
point for the bulk-approve loop: a per-record failure drops only that
record's effect (flags exhausted beyond the list default to success). -/
def survivors : List Bool → List RecordData → List RecordData
  | _, [] => []
  | [], r :: rs => r :: survivors [] rs
  | ok :: oks, r :: rs =>
      if ok then r :: survivors oks rs else survivors oks rs

/-- A second pending hostel submission for another hostel. -/
def hostelQ : HostelSubmission :=
  { hostelP with submission_id := "hw2", hostel := "3" }

/-- A later same-day collection of the same hostel as `hostelP`. -/
def hostelR : HostelSubmission :=
  { hostelP with submission_id := "hw3", dry_waste := 4, total_waste := 8 }

/-- The empty database state. -/
def st9 : DBState :=
  { mess_subs := fun _ => none, hostel_subs := fun _ => none,
    master := emptyMaster, pho_edits := [] }

/-- C9 counterexample: bulk approval of two collections where the first
record's approval fails returns exactly the same value to the caller as
the run in which everything succeeds (`None` both times), while the
state shows partial success — the first hostel's aggregate row is
missing, the second's was written. -/
theorem approve_all_silent_counterexample :
    (approve_all_collections [false, true]
        [RecordData.hostel hostelP, RecordData.hostel hostelQ] "pho1" "t1" st9).2
      = (approve_all_collections [true, true]
        [RecordData.hostel hostelP, RecordData.hostel hostelQ] "pho1" "t1" st9).2
  ∧ (approve_all_collections [false, true]
        [RecordData.hostel hostelP, RecordData.hostel hostelQ] "pho1" "t1" st9).1.master
        ("2024-01-10", "2") = none
  ∧ ((approve_all_collections [false, true]
        [RecordData.hostel hostelP, RecordData.hostel hostelQ] "pho1" "t1" st9).1.master
        ("2024-01-10", "3")).isSome = true
  ∧ ((approve_all_collections [true, true]
        [RecordData.hostel hostelP, RecordData.hostel hostelQ] "pho1" "t1" st9).1.master
        ("2024-01-10", "2")).isSome = true := by
  refine ⟨rfl, ?_, ?_, ?_⟩ <;> decide

/-- C9 as amended: `approve_all_collections` applies the direct approve
to each record in order and a failure on one record only drops that
record's effect without stopping the loop — the final state is the one
obtained by approving exactly the surviving records — but the function
returns `None` regardless, so the caller is never told which records
succeeded and which failed. -/
theorem approve_all_skips_failures_returns_unit (oks : List Bool)
    (records : List RecordData) (u ts : String) (st : DBState) :
    approve_all_collections oks records u ts st
      = ((survivors oks records).foldl
          (fun s r => (approve_submission true r u ts s).1) st, ()) := by
  induction records generalizing oks st with
  | nil => cases oks <;> rfl
  | cons r rs ih =>
      cases oks with
      | nil => simp [approve_all_collections, survivors, ih]
      | cons ok oks2 =>
          cases ok
          · simp [approve_all_collections, survivors, approve_submission, ih]
          · simp [approve_all_collections, survivors, ih]

/-- The hostel-group values an upsert of this submission writes: the
five category fields and their sum. -/
def hostel_group_of_submission (r : HostelSubmission) : HostelGroup :=
  ⟨r.dry_waste + r.wet_waste + r.e_waste + r.biomedical_waste + r.hazardous_waste,
   r.dry_waste, r.wet_waste, r.e_waste, r.biomedical_waste, r.hazardous_waste⟩

lemma hostel_upsert_row_hostelGroup (data : HostelSubmission) (old : Option MasterRow) :
    hostelGroupOf (hostel_upsert_row data old) = hostel_group_of_submission data := by
  cases old <;> rfl

lemma approve_all_append (xs ys : List RecordData) (u ts : String) (st : DBState) :
    approve_all_collections [] (xs ++ ys) u ts st
      = approve_all_collections [] ys u ts
          (approve_all_collections [] xs u ts st).1 := by
  induction xs generalizing st with
  | nil => rfl
  | cons x xs2 ih => simp [approve_all_collections, ih]

lemma hostel_totals_foldl (l : List HostelSubmission) (t : HostelTotals) :
    l.foldl hostel_totals_step t =
      { t with
        dry_waste := t.dry_waste + (l.map (fun x => x.dry_waste)).sum
        wet_waste := t.wet_waste + (l.map (fun x => x.wet_waste)).sum
        e_waste := t.e_waste + (l.map (fun x => x.e_waste)).sum
        biomedical_waste :=
          t.biomedical_waste + (l.map (fun x => x.biomedical_waste)).sum
        hazardous_waste :=
          t.hazardous_waste + (l.map (fun x => x.hazardous_waste)).sum
        total_waste := t.total_waste + (l.map (fun x => x.total_waste)).sum } := by
  induction l generalizing t with
  | nil => simp
  | cons r rs ih =>
      simp [List.foldl_cons, ih, hostel_totals_step, add_assoc]

/-- C10: the hostel upsert overwrites rather than accumulates — after
applying two same-keyed collections in sequence, the keyed row's
hostel-group fields equal those from applying the second alone; bulk
approval of a list of collections leaves the master row of the last
record's key holding exactly that record's own values; yet the display
helper `aggregate_hostel_waste_collections` computes the SUM of the
collections' category fields. -/
theorem hostel_upsert_last_write_wins
    (tbl : MasterTable) (s1 s2 : HostelSubmission)
    (hk : (s1.submission_date, s1.hostel) = (s2.submission_date, s2.hostel))
    (rs : List HostelSubmission) (rl : HostelSubmission)
    (u ts : String) (st : DBState)
    (r0 : HostelSubmission) (others : List HostelSubmission) :
    (add_to_master_file_hostel s2 (add_to_master_file_hostel s1 tbl)
        (s1.submission_date, s1.hostel)).map hostelGroupOf
      = (add_to_master_file_hostel s2 tbl
        (s1.submission_date, s1.hostel)).map hostelGroupOf
  ∧ ((approve_all_collections [] ((rs ++ [rl]).map RecordData.hostel) u ts st).1.master
        (rl.submission_date, rl.hostel)).map hostelGroupOf
      = some (hostel_group_of_submission rl)
  ∧ (∃ t, aggregate_hostel_waste_collections (r0 :: others) = some t
      ∧ t.dry_waste = ((r0 :: others).map (fun x => x.dry_waste)).sum
      ∧ t.wet_waste = ((r0 :: others).map (fun x => x.wet_waste)).sum
      ∧ t.e_waste = ((r0 :: others).map (fun x => x.e_waste)).sum
      ∧ t.biomedical_waste = ((r0 :: others).map (fun x => x.biomedical_waste)).sum
      ∧ t.hazardous_waste = ((r0 :: others).map (fun x => x.hazardous_waste)).sum
      ∧ t.total_waste = ((r0 :: others).map (fun x => x.total_waste)).sum
      ∧ t.collection_count = (r0 :: others).length) := by
  refine ⟨?_, ?_, ?_⟩
  · rw [hk]
    rw [add_hostel_at_key, add_hostel_at_key]
    simp [hostel_upsert_row_hostelGroup]
  · rw [List.map_append, approve_all_append]
    simp [approve_all_collections, approve_submission,
      add_hostel_at_key, hostel_upsert_row_hostelGroup]
  · refine ⟨_, rfl, ?_, ?_, ?_, ?_, ?_, ?_, ?_⟩ <;>
      simp [aggregate_hostel_waste_collections, hostel_totals_foldl,
        hostel_totals_step]

/-- Witness for C10: two same-day collections of hostel "2". -/
theorem hostel_upsert_last_write_wins_witness :
    (hostelP.submission_date, hostelP.hostel)
      = (hostelR.submission_date, hostelR.hostel)
  ∧ (add_to_master_file_hostel hostelR (add_to_master_file_hostel hostelP emptyMaster)
        (hostelP.submission_date, hostelP.hostel)).map hostelGroupOf
      = (add_to_master_file_hostel hostelR emptyMaster
        (hostelP.submission_date, hostelP.hostel)).map hostelGroupOf :=
  ⟨rfl, (hostel_upsert_last_write_wins emptyMaster hostelP hostelR rfl []
      hostelP "pho1" "t1" st9 hostelP []).1⟩

end DataPool
